import Mathlib

/-!
Verification of the retrieval core of the document-chat assistant
(vector_store.py, class VectorDB): text chunking, index construction,
and thresholded nearest-neighbor retrieval.

The embedding follows the Python source closely:
* Python exceptions are modelled by the type PyError: the class
  VectorDBError is one constructor, every other exception class the other.
  Fallible operations return Except PyError or Except String, a String
  standing for the message of a generic (non-VectorDBError) exception.
* The mutable VectorDB object is a record; methods become functions from
  the record to the record (plus result or error).
* The external dependencies (the SentenceTransformer model and the FAISS
  library) are injected as function parameters: encode for batch chunk
  embedding, encodeQ for query embedding, faissOps for the FAISS
  normalize-and-add sequence inside create_faiss_index, and normalize for
  faiss.normalize_L2 on the query vector.  Their numeric content (float
  vectors) is modelled over the rationals.
-/

/-- Model of a raised Python exception: either the module exception class
VectorDBError (vector_store.py line 25) or any other exception class. -/
inductive PyError where
  | vectorDBError (msg : String)
  | otherError (msg : String)
deriving DecidableEq, Repr

/-- The Python class of a raised exception, as a name.  This is the only
piece of information a caller can dispatch on with except-clauses. -/
def PyError.className : PyError → String
  | .vectorDBError _ => "VectorDBError"
  | .otherError _ => "Exception"

/-- Embedding vectors (numpy float arrays) are modelled as rational lists. -/
abbrev Vec := List ℚ

/-- State of a VectorDB instance: the fields assigned in VectorDB.__init__
(model name omitted — it never changes and no claim mentions it). -/
structure VectorDB where
  chunks : List String
  index : Option (List Vec)
  embedding_dimension : Option Nat
  is_indexed : Bool
deriving DecidableEq, Repr

/-- Fresh state after VectorDB.__init__ (with a successful model load). -/
def VectorDB.init : VectorDB :=
  { chunks := [], index := none, embedding_dimension := none, is_indexed := false }

/-- MIN_CHUNK_LENGTH class constant: minimum characters for a valid chunk. -/
def MIN_CHUNK_LENGTH : Nat := 10

/-- MAX_CHUNK_SIZE class constant: maximum chunk size in words. -/
def MAX_CHUNK_SIZE : Int := 2000

/-- Python str.strip() on the character-list model of strings (drop
whitespace from both ends).  Defined structurally so that proofs can
evaluate it; the core String.trim does not reduce definitionally. -/
def pyStrip (s : String) : String :=
  ⟨((s.data.dropWhile Char.isWhitespace).reverse.dropWhile Char.isWhitespace).reverse⟩

/-- Python len(s): the number of characters. -/
def pyLen (s : String) : Nat := s.data.length

/-- VectorDB._validate_text_input.  The isinstance check is subsumed by
typing; the two value checks are kept in source order.  Note the length
check is on the raw text, not the stripped text. -/
def validate_text_input (text : String) : Except PyError Unit :=
  if pyStrip text = "" then
    .error (.vectorDBError "Text cannot be empty or whitespace only")
  else if pyLen text < MIN_CHUNK_LENGTH then
    .error (.vectorDBError "Text too short (minimum 10 characters)")
  else
    .ok ()

/-- VectorDB._validate_chunk_parameters, checks in source order.  Python
ints are unbounded, so the parameters are modelled as Int. -/
def validate_chunk_parameters (chunk_size overlap : Int) : Except PyError Unit :=
  if chunk_size ≤ 0 then
    .error (.vectorDBError "Chunk size must be a positive integer")
  else if overlap < 0 then
    .error (.vectorDBError "Overlap must be a non-negative integer")
  else if chunk_size ≤ overlap then
    .error (.vectorDBError "Overlap must be less than chunk size")
  else if MAX_CHUNK_SIZE < chunk_size then
    .error (.vectorDBError "Chunk size cannot exceed 2000 words")
  else
    .ok ()

/-- Helper for pySplit: scan the characters, accumulating the current
word in reverse; whitespace ends a word, empty pieces are dropped. -/
def pySplitAux (cs : List Char) (cur : List Char) : List (List Char) :=
  match cs with
  | [] => if cur = [] then [] else [cur.reverse]
  | c :: rest =>
    if Char.isWhitespace c then
      if cur = [] then pySplitAux rest [] else cur.reverse :: pySplitAux rest []
    else pySplitAux rest (c :: cur)

/-- Python text.split() with no separator: split on whitespace runs,
dropping empty pieces. -/
def pySplit (s : String) : List String :=
  (pySplitAux s.data []).map (fun w => ⟨w⟩)

/-- Python " ".join(ws). -/
def joinSpace (ws : List String) : String :=
  ⟨(List.intersperse [' '] (ws.map String.data)).flatten⟩

/-- Python " ".join(ws).strip(), as used on each window in chunk_text. -/
def joinStrip (w : List String) : String :=
  pyStrip (joinSpace w)

/-- The window-generating loop of VectorDB.chunk_text:
for i in range(0, total_words, step): emit words[i : i + chunk_size],
breaking once i + chunk_size reaches total_words.  Returns the windows as
word lists, before joining and before the minimum-length filter (the
break condition does not depend on the filter, so generating first and
filtering after is equivalent to the source loop). -/
def chunkLoop (words : List String) (chunk_size step : Nat) :
    Nat → Nat → List (List String)
  | 0, _ => []
  | fuel + 1, i =>
    if i < words.length then
      if words.length ≤ i + chunk_size then [(words.drop i).take chunk_size]
      else (words.drop i).take chunk_size ::
        chunkLoop words chunk_size step fuel (i + step)
    else []

/-- All windows generated by the chunk_text loop for the given chunk size
and overlap (step = chunk_size - overlap).  The loop starts at word
offset 0 and advances by at least one word per emitted window (parameter
validation guarantees overlap < chunk_size, hence step at least 1), so a
fuel of words.length can never be exhausted; the fuel only makes the
recursion structural. -/
def slidingWindows (words : List String) (chunk_size overlap : Nat) :
    List (List String) :=
  chunkLoop words chunk_size (chunk_size - overlap) words.length 0

/-- VectorDB.chunk_text: validate, split into words, single trimmed chunk
when total_words does not exceed chunk_size, otherwise the joined sliding
windows with windows shorter than MIN_CHUNK_LENGTH characters dropped. -/
def chunk_text (text : String) (chunk_size overlap : Int) :
    Except PyError (List String) :=
  match validate_text_input text with
  | .error e => .error e
  | .ok _ =>
    match validate_chunk_parameters chunk_size overlap with
    | .error e => .error e
    | .ok _ =>
      if (((pySplit text).length : Int)) ≤ chunk_size then
        .ok [pyStrip text]
      else
        .ok (((slidingWindows (pySplit text) chunk_size.toNat overlap.toNat).map
            joinStrip).filter
          (fun c => decide (MIN_CHUNK_LENGTH ≤ pyLen c)))

/-- embeddings.shape[1] for a (non-empty, rectangular) embedding matrix. -/
def shape1 (m : List Vec) : Nat := (m.headD []).length

/-- VectorDB._create_faiss_index.  The FAISS calls (IndexFlatIP
construction, faiss.normalize_L2 on the embedding matrix, index.add) are
the injected faissOps, returning the stored vectors of the index; any
exception they raise is wrapped into a VectorDBError, exactly as the
except clause of the source does. -/
def create_faiss_index (faissOps : List Vec → Except String (List Vec))
    (embeddings : List Vec) : Except PyError (List Vec) :=
  match faissOps embeddings with
  | .ok stored => .ok stored
  | .error e => .error (.vectorDBError ("Failed to create FAISS index: " ++ e))

/-- VectorDB._cleanup_failed_index: clear all four state fields. -/
def cleanup_failed_index (db : VectorDB) : VectorDB :=
  { db with
      index := none
      chunks := []
      is_indexed := false
      embedding_dimension := none }

/-- VectorDB.build_index.  Returns the post-call state together with the
raised error, if any.  Control flow mirrors the source: an is_indexed
guard; chunk_text whose VectorDBError propagates unchanged (the field
assignment did not happen, so the state is untouched); the empty-chunks
VectorDBError (raised after self.chunks was assigned, re-raised by the
except VectorDBError clause with no cleanup); a generic exception from
the embedding model caught by the except Exception clause, which runs
cleanup_failed_index and wraps; and create_faiss_index, whose
VectorDBError is re-raised by the except VectorDBError clause WITHOUT
cleanup, after self.chunks and self.embedding_dimension were assigned. -/
def build_index (encode : List String → Except String (List Vec))
    (faissOps : List Vec → Except String (List Vec)) (db : VectorDB)
    (text : String) (chunk_size overlap : Int) : VectorDB × Option PyError :=
  if db.is_indexed then (db, none)
  else
    match chunk_text text chunk_size overlap with
    | .error e => (db, some e)
    | .ok chunks =>
      let db1 := { db with chunks := chunks }
      if chunks.isEmpty then
        (db1, some (.vectorDBError "No valid chunks created from input text"))
      else
        match encode chunks with
        | .error e =>
          (cleanup_failed_index db1,
            some (.vectorDBError ("Unexpected error during index building: " ++ e)))
        | .ok embeddings =>
          let db2 := { db1 with embedding_dimension := some (shape1 embeddings) }
          match create_faiss_index faissOps embeddings with
          | .error e => (db2, some e)
          | .ok stored =>
            ({ db2 with index := some stored, is_indexed := true }, none)

/-- VectorDB._validate_retrieval_parameters, checks in source order.  The
final top_k-exceeds-chunk-count branch only logs a warning and is
behaviorally a no-op, so it is omitted. -/
def validate_retrieval_parameters (query : String) (top_k : Int)
    (threshold : ℚ) : Except PyError Unit :=
  if pyStrip query = "" then
    .error (.vectorDBError "Query must be a non-empty string")
  else if top_k ≤ 0 then
    .error (.vectorDBError "top_k must be a positive integer")
  else if threshold < 0 ∨ 1 < threshold then
    .error (.vectorDBError "Threshold must be a number between 0 and 1")
  else
    .ok ()

/-- Inner product of two stored vectors (numpy float dot, over ℚ). -/
def innerProduct (u v : Vec) : ℚ :=
  (List.zipWith (fun a b => a * b) u v).sum

/-- faiss.IndexFlatIP search: score every stored vector against the query
by inner product, sort by descending score (stable, so ties keep the
lower chunk index first), and return the best k index-score pairs. -/
def faiss_search (stored : List Vec) (q : Vec) (k : Nat) : List (Nat × ℚ) :=
  (List.insertionSort (fun a b : Nat × ℚ => b.2 ≤ a.2)
    ((List.range stored.length).map (fun i => (i, innerProduct (stored.getD i []) q)))).take k

/-- VectorDB.retrieve.  The built-state check comes first, then parameter
validation, then the query embedding (encodeQ; a generic exception from
the model is wrapped by the except Exception clause), faiss.normalize_L2
on the query vector (normalize), the index search with k capped at
min(top_k, len(chunks)), and the filter keeping pairs with a valid index
and score strictly above the threshold, in search order. -/
def retrieve (encodeQ : String → Except String Vec) (normalize : Vec → Vec)
    (db : VectorDB) (query : String) (top_k : Int) (threshold : ℚ) :
    Except PyError (List String) :=
  if db.is_indexed = false ∨ db.index = none then
    .error (.vectorDBError "Index not available - build index first")
  else
    match validate_retrieval_parameters query top_k threshold with
    | .error e => .error e
    | .ok _ =>
      match encodeQ query with
      | .error e =>
        .error (.vectorDBError ("Unexpected error during retrieval: " ++ e))
      | .ok emb =>
        .ok (((faiss_search (db.index.getD []) (normalize emb)
              (min top_k.toNat db.chunks.length)).filter
            (fun p => decide (p.1 < db.chunks.length ∧ threshold < p.2))).map
          (fun p => db.chunks.getD p.1 ""))

/-- VectorDB.reset: unconditionally clear all four state fields (the
except branch forces the same cleared state, so both paths agree). -/
def reset (_db : VectorDB) : VectorDB :=
  { chunks := [], index := none, embedding_dimension := none,
    is_indexed := false }

/-! Concrete embedding backends and states used by counterexamples and
witnesses. -/

/-- An embedding backend returning a constant dim-dimensional vector for
every chunk. -/
def encodeConstVec (dim : Nat) : List String → Except String (List Vec) :=
  fun chunks => .ok (chunks.map (fun _ => List.replicate dim 1))

/-- FAISS operations that raise (as index.add can, for example on memory
exhaustion). -/
def faissFail : List Vec → Except String (List Vec) :=
  fun _ => .error "boom"

/-- FAISS operations that store the embeddings unchanged. -/
def faissOk : List Vec → Except String (List Vec) :=
  fun v => .ok v

/-- An embedding backend that always raises a generic exception. -/
def encodeCrash : List String → Except String (List Vec) :=
  fun _ => .error "model crashed"

/-- A concrete built two-chunk state. -/
def builtDB : VectorDB :=
  { chunks := ["chunk one text", "chunk two text"], index := some [[1], [0]],
    embedding_dimension := some 1, is_indexed := true }

/-- A query embedder returning the one-dimensional vector 1. -/
def encodeQOne : String → Except String Vec := fun _ => .ok [1]

/-- A document of exactly 700 one-letter words. -/
def text700 : String :=
  ⟨(List.intersperse [' '] (List.replicate 700 ['w'])).flatten⟩

/-- The last n words of a word list. -/
def lastWords (n : Nat) (w : List String) : List String :=
  w.drop (w.length - n)

/-- The first n words of a word list. -/
def firstWords (n : Nat) (w : List String) : List String :=
  w.take n

/-! Helper lemmas. -/

/-- On an unbuilt state retrieve raises the not-built VectorDBError
before anything else runs. -/
theorem retrieve_not_built (encodeQ : String → Except String Vec)
    (normalize : Vec → Vec) (db : VectorDB) (query : String) (top_k : Int)
    (threshold : ℚ) (h : db.is_indexed = false ∨ db.index = none) :
    retrieve encodeQ normalize db query top_k threshold
      = .error (.vectorDBError "Index not available - build index first") := by
  unfold retrieve
  rw [if_pos h]

/-!
C8.  The claim: build_index is idempotent — on an already built index a
second call returns immediately, with no error and no state change.
Source: vector_store.py lines 210-212.
-/

/-- C8: if the is_indexed flag is set, build_index returns the state
unchanged and raises nothing, for every text and every parameters. -/
theorem build_index_idempotent (encode : List String → Except String (List Vec))
    (faissOps : List Vec → Except String (List Vec)) (db : VectorDB)
    (text : String) (chunk_size overlap : Int) (h : db.is_indexed = true) :
    build_index encode faissOps db text chunk_size overlap = (db, none) := by
  unfold build_index
  rw [h]
  rfl

/-- Witness for C8 at a concrete built state and concrete arguments. -/
theorem build_index_idempotent_witness :
    build_index (encodeConstVec 1) faissFail builtDB "some new document text" 600 50
      = (builtDB, none) :=
  build_index_idempotent (encodeConstVec 1) faissFail builtDB
    "some new document text" 600 50 rfl

/-!
C9.  The claim: reset unconditionally clears chunks, index, dimension and
built flag, and after reset (or before any build) every retrieve call
fails with the not-built error.  Source: vector_store.py lines 371-394
and 302-305.
-/

/-- C9: reset returns the fresh empty state from every prior state, and
retrieve on the reset state (equally, on a never-built state) always
raises the not-built VectorDBError, whatever its arguments. -/
theorem reset_clears_and_blocks_retrieve (db : VectorDB)
    (encodeQ : String → Except String Vec) (normalize : Vec → Vec)
    (query : String) (top_k : Int) (threshold : ℚ) :
    reset db = VectorDB.init
    ∧ retrieve encodeQ normalize (reset db) query top_k threshold
        = .error (.vectorDBError "Index not available - build index first")
    ∧ retrieve encodeQ normalize VectorDB.init query top_k threshold
        = .error (.vectorDBError "Index not available - build index first") :=
  ⟨rfl,
   retrieve_not_built encodeQ normalize (reset db) query top_k threshold
     (Or.inl rfl),
   retrieve_not_built encodeQ normalize VectorDB.init query top_k threshold
     (Or.inl rfl)⟩

/-!
C10.  The claim (implicit in the source): the built-state check of
retrieve runs before parameter validation, so on an unbuilt index even
invalid parameters produce the not-built error, never a validation
error.  Source: vector_store.py lines 302-308 and 264-283.
-/

/-- C10: on any state that is not fully built, retrieve raises the
not-built VectorDBError regardless of query, top_k and threshold. -/
theorem retrieve_built_check_first (encodeQ : String → Except String Vec)
    (normalize : Vec → Vec) (db : VectorDB) (query : String) (top_k : Int)
    (threshold : ℚ) (h : db.is_indexed = false ∨ db.index = none) :
    retrieve encodeQ normalize db query top_k threshold
      = .error (.vectorDBError "Index not available - build index first") :=
  retrieve_not_built encodeQ normalize db query top_k threshold h

/-- Witness for C10: on the fresh state, with an empty query, a
non-positive top_k and an out-of-range threshold all at once, the error
is still the not-built one. -/
theorem retrieve_built_check_first_witness :
    retrieve encodeQOne id VectorDB.init "" 0 2
      = .error (.vectorDBError "Index not available - build index first") :=
  retrieve_built_check_first encodeQOne id VectorDB.init "" 0 2 (Or.inl rfl)

/-!
C1.  The claim: any failure during embedding computation or
similarity-index construction rolls the state fully back to the
empty/unbuilt state before the error propagates.  The code violates it:
_create_faiss_index wraps every internal failure in a VectorDBError
(lines 192-195), and the except VectorDBError clause of build_index
(line 256) re-raises it WITHOUT running _cleanup_failed_index, so an
index-construction failure leaves self.chunks and
self.embedding_dimension populated — a half-built state.  (An embedding
failure, by contrast, is a generic exception and is cleaned up.)  This
contradicts the stated purpose of _cleanup_failed_index ("Clean up
resources after failed index creation"), so it is a code bug.
-/

/-- C1 evidence: on a fresh state, when embedding succeeds and the FAISS
index construction raises, build_index propagates a VectorDBError while
leaving the chunk list non-empty and the dimensionality set — the state
is not rolled back.  The same run with a failing embedding model IS
rolled back, isolating the bug to the index-construction path. -/
theorem build_index_faiss_failure_leaves_state :
    build_index (encodeConstVec 4) faissFail VectorDB.init
        "alpha beta gamma delta epsilon zeta" 600 50
      = ({ chunks := ["alpha beta gamma delta epsilon zeta"], index := none,
           embedding_dimension := some 4, is_indexed := false },
         some (.vectorDBError "Failed to create FAISS index: boom"))
    ∧ (build_index (encodeConstVec 4) faissFail VectorDB.init
        "alpha beta gamma delta epsilon zeta" 600 50).1.chunks ≠ []
    ∧ (build_index (encodeConstVec 4) faissFail VectorDB.init
        "alpha beta gamma delta epsilon zeta" 600 50).1.embedding_dimension ≠ none
    ∧ build_index encodeCrash faissOk VectorDB.init
        "alpha beta gamma delta epsilon zeta" 600 50
      = (VectorDB.init,
         some (.vectorDBError "Unexpected error during index building: model crashed")) :=
  ⟨rfl, by decide, by decide, rfl⟩

/-!
C2.  The claim: every chunk returned by chunk_text has at least
MIN_CHUNK_LENGTH = 10 characters; text whose trimmed length is below 10
is rejected; shorter produced chunks are silently dropped.  The code
refutes the universal statement: _validate_text_input checks
len(text) on the RAW text (line 89 of the source), and the single-chunk
path (total words not exceeding chunk_size, lines 145-147) returns
text.strip() without any minimum-length check.  A 10-character text
made of 2 letters and 8 trailing spaces passes validation and yields the
2-character chunk "ab".  The min-length filter does govern every chunk
of the multi-window path.
-/

/-- C2 counterexample: "ab" followed by 8 spaces has raw length 10, so
validation accepts it although its stripped length is 2; the single
returned chunk has only 2 characters, below the minimum of 10. -/
theorem chunk_min_length_counterexample :
    chunk_text "ab        " 600 50 = .ok ["ab"]
    ∧ pyLen (pyStrip "ab        ") < MIN_CHUNK_LENGTH
    ∧ pyLen "ab" < MIN_CHUNK_LENGTH :=
  ⟨rfl, by decide, by decide⟩

/-- C2 amended: validation rejects text whose RAW character length is
below 10 (stripped text may still be shorter); and on the multi-window
path (word count strictly above chunk_size) every returned chunk has at
least 10 characters, shorter windows being dropped by the filter.  Only
the single-chunk path can return a chunk below the minimum. -/
theorem chunk_min_length_amended (text : String) (chunk_size overlap : Int) :
    (pyStrip text ≠ "" → pyLen text < MIN_CHUNK_LENGTH →
      chunk_text text chunk_size overlap
        = .error (.vectorDBError "Text too short (minimum 10 characters)"))
    ∧ (∀ res, chunk_text text chunk_size overlap = .ok res →
        chunk_size < ((pySplit text).length : Int) →
        ∀ c ∈ res, MIN_CHUNK_LENGTH ≤ pyLen c) := by
  constructor
  · intro h1 h2
    have hval : validate_text_input text
        = .error (.vectorDBError "Text too short (minimum 10 characters)") := by
      unfold validate_text_input
      rw [if_neg h1, if_pos h2]
    unfold chunk_text
    rw [hval]
  · intro res h hlt c hc
    unfold chunk_text at h
    split at h
    · exact absurd h (by simp)
    · split at h
      · exact absurd h (by simp)
      · split at h
        · next hle => omega
        · rw [Except.ok.injEq] at h
          subst h
          have := (List.mem_filter.mp hc).2
          exact of_decide_eq_true this

/-- Witness for C2 amended, at a 5-character text for the rejection part
and at a 3-word text with chunk_size 2 for the multi-window part. -/
theorem chunk_min_length_amended_witness :
    chunk_text "short" 600 50
      = .error (.vectorDBError "Text too short (minimum 10 characters)")
    ∧ ∀ c ∈ ["aaaaaaaaaa bbbbbbbbbb", "cccccccccc"], MIN_CHUNK_LENGTH ≤ pyLen c :=
  ⟨(chunk_min_length_amended "short" 600 50).1 (by decide) (by decide),
   (chunk_min_length_amended "aaaaaaaaaa bbbbbbbbbb cccccccccc" 2 0).2
     ["aaaaaaaaaa bbbbbbbbbb", "cccccccccc"] rfl (by decide)⟩

/-!
C3.  The claim: validation failures are raised as a typed error DISTINCT
from unexpected internal failures, so a caller can tell the two kinds
apart from the error type alone.  The code refutes this: vector_store.py
defines exactly one exception class, VectorDBError, and raises it for
validation failures AND for wrapped internal failures (embedding-model
errors, FAISS errors), so the error type alone cannot separate the two.
-/

/-- Every error of _validate_text_input is a VectorDBError. -/
theorem validate_text_input_error_class (text : String) (e : PyError)
    (h : validate_text_input text = .error e) : e.className = "VectorDBError" := by
  unfold validate_text_input at h
  split at h
  · rw [Except.error.injEq] at h
    subst h
    rfl
  · split at h
    · rw [Except.error.injEq] at h
      subst h
      rfl
    · exact absurd h (by simp)

/-- Every error of _validate_chunk_parameters is a VectorDBError. -/
theorem validate_chunk_parameters_error_class (cs ov : Int) (e : PyError)
    (h : validate_chunk_parameters cs ov = .error e) :
    e.className = "VectorDBError" := by
  unfold validate_chunk_parameters at h
  split at h
  · rw [Except.error.injEq] at h
    subst h
    rfl
  · split at h
    · rw [Except.error.injEq] at h
      subst h
      rfl
    · split at h
      · rw [Except.error.injEq] at h
        subst h
        rfl
      · split at h
        · rw [Except.error.injEq] at h
          subst h
          rfl
        · exact absurd h (by simp)

/-- Every error of _validate_retrieval_parameters is a VectorDBError. -/
theorem validate_retrieval_parameters_error_class (query : String)
    (top_k : Int) (threshold : ℚ) (e : PyError)
    (h : validate_retrieval_parameters query top_k threshold = .error e) :
    e.className = "VectorDBError" := by
  unfold validate_retrieval_parameters at h
  split at h
  · rw [Except.error.injEq] at h
    subst h
    rfl
  · split at h
    · rw [Except.error.injEq] at h
      subst h
      rfl
    · split at h
      · rw [Except.error.injEq] at h
        subst h
        rfl
      · exact absurd h (by simp)

/-- Every error of _create_faiss_index is a VectorDBError. -/
theorem create_faiss_index_error_class
    (faissOps : List Vec → Except String (List Vec)) (embeddings : List Vec)
    (e : PyError) (h : create_faiss_index faissOps embeddings = .error e) :
    e.className = "VectorDBError" := by
  unfold create_faiss_index at h
  split at h
  · exact absurd h (by simp)
  · rw [Except.error.injEq] at h
    subst h
    rfl

/-- Every error of chunk_text is a VectorDBError. -/
theorem chunk_text_error_class (text : String) (cs ov : Int) (e : PyError)
    (h : chunk_text text cs ov = .error e) : e.className = "VectorDBError" := by
  unfold chunk_text at h
  split at h
  · rw [Except.error.injEq] at h
    subst h
    exact validate_text_input_error_class text _ (by assumption)
  · split at h
    · rw [Except.error.injEq] at h
      subst h
      exact validate_chunk_parameters_error_class cs ov _ (by assumption)
    · split at h
      · exact absurd h (by simp)
      · exact absurd h (by simp)

/-- Every error raised by build_index is a VectorDBError. -/
theorem build_index_error_class (encode : List String → Except String (List Vec))
    (faissOps : List Vec → Except String (List Vec)) (db : VectorDB)
    (text : String) (cs ov : Int) (e : PyError)
    (h : (build_index encode faissOps db text cs ov).2 = some e) :
    e.className = "VectorDBError" := by
  unfold build_index at h
  split at h
  · exact absurd h (by simp)
  · split at h
    · rw [Option.some.injEq] at h
      subst h
      exact chunk_text_error_class text cs ov _ (by assumption)
    · split at h
      · rw [Option.some.injEq] at h
        subst h
        rfl
      · split at h
        · rw [Option.some.injEq] at h
          subst h
          rfl
        · split at h
          · rw [Option.some.injEq] at h
            subst h
            exact create_faiss_index_error_class faissOps _ _ (by assumption)
          · exact absurd h (by simp)

/-- Every error raised by retrieve is a VectorDBError. -/
theorem retrieve_error_class (encodeQ : String → Except String Vec)
    (normalize : Vec → Vec) (db : VectorDB) (query : String) (top_k : Int)
    (threshold : ℚ) (e : PyError)
    (h : retrieve encodeQ normalize db query top_k threshold = .error e) :
    e.className = "VectorDBError" := by
  unfold retrieve at h
  split at h
  · rw [Except.error.injEq] at h
    subst h
    rfl
  · split at h
    · rw [Except.error.injEq] at h
      subst h
      exact validate_retrieval_parameters_error_class query top_k threshold _
        (by assumption)
    · split at h
      · rw [Except.error.injEq] at h
        subst h
        rfl
      · exact absurd h (by simp)

/-- C3 counterexample: a validation failure (empty text) and an internal
failure (embedding model raising) surface with the SAME exception class
VectorDBError — the error type alone cannot distinguish them. -/
theorem error_type_counterexample :
    chunk_text "" 600 50
      = .error (.vectorDBError "Text cannot be empty or whitespace only")
    ∧ (build_index encodeCrash faissOk VectorDB.init
        "abcdefghij klmnopqrst" 600 50).2
      = some (.vectorDBError
          "Unexpected error during index building: model crashed")
    ∧ (PyError.vectorDBError "Text cannot be empty or whitespace only").className
      = (PyError.vectorDBError
          "Unexpected error during index building: model crashed").className :=
  ⟨rfl, rfl, rfl⟩

/-- C3 amended: every failure of chunk_text, build_index and retrieve —
validation failures and wrapped internal failures alike — is raised as
the single typed error class VectorDBError.  Callers can separate
VectorDB errors from foreign exceptions by type, but cannot separate
validation failures from internal failures by type alone (only by
message). -/
theorem all_errors_are_vectorDBError :
    (∀ text cs ov e, chunk_text text cs ov = .error e →
      e.className = "VectorDBError")
    ∧ (∀ encode faissOps db text cs ov e,
        (build_index encode faissOps db text cs ov).2 = some e →
        e.className = "VectorDBError")
    ∧ (∀ encodeQ normalize db query top_k threshold e,
        retrieve encodeQ normalize db query top_k threshold = .error e →
        e.className = "VectorDBError") :=
  ⟨fun text cs ov e h => chunk_text_error_class text cs ov e h,
   fun encode faissOps db text cs ov e h =>
     build_index_error_class encode faissOps db text cs ov e h,
   fun encodeQ normalize db query top_k threshold e h =>
     retrieve_error_class encodeQ normalize db query top_k threshold e h⟩

/-- Witness for C3 amended at three concrete failures: a validation
failure of chunk_text, an internal embedding failure of build_index, and
a not-built failure of retrieve. -/
theorem all_errors_are_vectorDBError_witness :
    (PyError.vectorDBError "Text cannot be empty or whitespace only").className
      = "VectorDBError"
    ∧ (PyError.vectorDBError
        "Unexpected error during index building: model crashed").className
      = "VectorDBError"
    ∧ (PyError.vectorDBError "Index not available - build index first").className
      = "VectorDBError" :=
  ⟨all_errors_are_vectorDBError.1 "" 600 50 _ rfl,
   all_errors_are_vectorDBError.2.1 encodeCrash faissOk VectorDB.init
     "abcdefghij klmnopqrst" 600 50 _ rfl,
   all_errors_are_vectorDBError.2.2 encodeQOne id VectorDB.init "q" 5 0 _ rfl⟩

/-- One window of the chunk_text loop: the window emitted at position j
(counting from loop entry at offset i) covers words i + step * j through
i + step * j + chunk_size.  Fuel at least the remaining word count can
never run out because each iteration advances by step ≥ 1. -/
theorem chunkLoop_get? (chunk_size step : Nat) (hstep : 0 < step) :
    ∀ (fuel : Nat) (words : List String) (i : Nat),
      words.length - i ≤ fuel →
      ∀ j, j < (chunkLoop words chunk_size step fuel i).length →
        (chunkLoop words chunk_size step fuel i).get? j
          = some ((words.drop (i + step * j)).take chunk_size) := by
  intro fuel
  induction fuel with
  | zero =>
    intro words i _ j hj
    simp [chunkLoop] at hj
  | succ n ih =>
    intro words i hf j hj
    by_cases hi : i < words.length
    · by_cases hend : words.length ≤ i + chunk_size
      · rw [chunkLoop, if_pos hi, if_pos hend] at hj ⊢
        have hj0 : j = 0 := by
          simp only [List.length_singleton] at hj
          omega
        subst hj0
        simp
      · rw [chunkLoop, if_pos hi, if_neg hend] at hj ⊢
        cases j with
        | zero => simp
        | succ j =>
          rw [List.get?_cons_succ]
          have hf2 : words.length - (i + step) ≤ n := by omega
          have hj2 : j < (chunkLoop words chunk_size step n (i + step)).length := by
            simp only [List.length_cons] at hj
            omega
          rw [ih words (i + step) hf2 j hj2]
          have harith : i + step * (j + 1) = i + step + step * j := by ring
          rw [harith]
    · rw [chunkLoop, if_neg hi] at hj
      simp at hj

/-- Division step used by the window-count formula. -/
theorem div550_step (a : Nat) (ha : 1 ≤ a) :
    (a + 549) / 550 = (a - 550 + 549) / 550 + 1 := by
  rcases le_or_lt 550 a with h | h
  · have h1 : a + 549 = a - 550 + 549 + 550 := by omega
    rw [h1, Nat.add_div_right _ (by norm_num)]
  · have h1 : a - 550 = 0 := by omega
    have h2 : a + 549 = (a - 1) + 550 := by omega
    have h3 : (a - 1) / 550 = 0 := Nat.div_eq_of_lt (by omega)
    rw [h1, h2, Nat.add_div_right _ (by norm_num), h3]

/-- Window count of the chunk_text loop with chunk size 600 and step 550
(the default parameters): starting at offset i, the loop emits
ceil((length - i - 600) / 550) + 1 windows, written with natural
subtraction and ceiling division. -/
theorem chunkLoop600_length :
    ∀ (fuel : Nat) (words : List String) (i : Nat),
      words.length - i ≤ fuel → i < words.length →
      (chunkLoop words 600 550 fuel i).length
        = (words.length - (i + 600) + 549) / 550 + 1 := by
  intro fuel
  induction fuel with
  | zero =>
    intro words i hf hi
    omega
  | succ n ih =>
    intro words i hf hi
    by_cases hend : words.length ≤ i + 600
    · rw [chunkLoop, if_pos hi, if_pos hend]
      have h0 : words.length - (i + 600) = 0 := by omega
      rw [h0]
      norm_num
    · rw [chunkLoop, if_pos hi, if_neg hend]
      have hi2 : i + 550 < words.length := by omega
      have hf2 : words.length - (i + 550) ≤ n := by omega
      rw [List.length_cons, ih words (i + 550) hf2 hi2]
      have ha : 1 ≤ words.length - (i + 600) := by omega
      have hsub : words.length - (i + 550 + 600)
          = words.length - (i + 600) - 550 := by omega
      rw [hsub, div550_step _ ha]

/-- chunk_text after successful validation: the branch on the word count
against chunk_size. -/
theorem chunk_text_eq_of_valid (text : String) (cs ov : Int)
    (hval : validate_text_input text = .ok ())
    (hp : validate_chunk_parameters cs ov = .ok ()) :
    chunk_text text cs ov
      = if (((pySplit text).length : Int)) ≤ cs then .ok [pyStrip text]
        else .ok (((slidingWindows (pySplit text) cs.toNat ov.toNat).map
            joinStrip).filter
          (fun c => decide (MIN_CHUNK_LENGTH ≤ pyLen c))) := by
  unfold chunk_text
  rw [hval, hp]

/-!
C4.  The claim: with chunk_size 600 and overlap 50, a text of at most 600
words yields the single trimmed text as its one chunk; above 600 words
the loop generates ceil((N - 600) / 550) + 1 windows (before the
min-length filter), each window starting 550 words after the previous
one; at exactly 700 words the two windows are words[0:600] and
words[550:700].  Source: vector_store.py lines 138-163.
-/

/-- C4: window coverage of chunk_text at the default parameters.  The
count (words.length - 600 + 549) / 550 + 1 is ceil((N - 600) / 550) + 1
in natural-number arithmetic; window j starts at word offset 550 * j. -/
theorem chunk_coverage (text : String) :
    (validate_text_input text = .ok () → (pySplit text).length ≤ 600 →
      chunk_text text 600 50 = .ok [pyStrip text])
    ∧ (validate_text_input text = .ok () → 600 < (pySplit text).length →
      chunk_text text 600 50
        = .ok (((slidingWindows (pySplit text) 600 50).map joinStrip).filter
          (fun c => decide (MIN_CHUNK_LENGTH ≤ pyLen c))))
    ∧ (600 < (pySplit text).length →
      (slidingWindows (pySplit text) 600 50).length
        = ((pySplit text).length - 600 + 549) / 550 + 1
      ∧ ∀ j, j < (slidingWindows (pySplit text) 600 50).length →
        (slidingWindows (pySplit text) 600 50).get? j
          = some (((pySplit text).drop (550 * j)).take 600))
    ∧ ((pySplit text).length = 700 →
      slidingWindows (pySplit text) 600 50
        = [(pySplit text).take 600, ((pySplit text).drop 550).take 150]) := by
  have hsw : slidingWindows (pySplit text) 600 50
      = chunkLoop (pySplit text) 600 550 (pySplit text).length 0 := rfl
  have hcount : 600 < (pySplit text).length →
      (slidingWindows (pySplit text) 600 50).length
        = ((pySplit text).length - 600 + 549) / 550 + 1 := by
    intro hgt
    rw [hsw]
    have := chunkLoop600_length (pySplit text).length (pySplit text) 0
      (by omega) (by omega)
    simpa using this
  have hget : ∀ j, j < (slidingWindows (pySplit text) 600 50).length →
      (slidingWindows (pySplit text) 600 50).get? j
        = some (((pySplit text).drop (550 * j)).take 600) := by
    intro j hj
    rw [hsw] at hj ⊢
    have := chunkLoop_get? 600 550 (by norm_num) (pySplit text).length
      (pySplit text) 0 (by omega) j hj
    simpa using this
  refine ⟨?_, ?_, fun hgt => ⟨hcount hgt, hget⟩, ?_⟩
  · intro hval hle
    rw [chunk_text_eq_of_valid text 600 50 hval rfl,
      if_pos (by exact_mod_cast hle)]
  · intro hval hgt
    rw [chunk_text_eq_of_valid text 600 50 hval rfl,
      if_neg (by exact_mod_cast not_le.mpr hgt)]
    rfl
  · intro h700
    have hgt : 600 < (pySplit text).length := by omega
    have hlen2 : (slidingWindows (pySplit text) 600 50).length = 2 := by
      rw [hcount hgt, h700]
    obtain ⟨a, b, hab⟩ := List.length_eq_two.mp hlen2
    have hg0 := hget 0 (by omega)
    have hg1 := hget 1 (by omega)
    rw [hab] at hg0 hg1 ⊢
    simp only [List.get?_cons_zero, List.get?_cons_succ, Option.some.injEq,
      Nat.mul_zero, Nat.mul_one, List.drop_zero] at hg0 hg1
    subst hg0
    subst hg1
    have hd : ((pySplit text).drop 550).length = 150 := by
      rw [List.length_drop, h700]
    have h600 : ((pySplit text).drop 550).take 600 = (pySplit text).drop 550 :=
      List.take_of_length_le (by omega)
    have h150 : ((pySplit text).drop 550).take 150 = (pySplit text).drop 550 :=
      List.take_of_length_le (by omega)
    rw [h600, h150]

set_option maxRecDepth 40000 in
/-- Witness for C4 at a 3-word text (single-chunk side) and at the
700-word document text700 (window side: 2 windows, words[0:600] and
words[550:700]). -/
theorem chunk_coverage_witness :
    chunk_text "alpha beta gamma" 600 50 = .ok [pyStrip "alpha beta gamma"]
    ∧ chunk_text text700 600 50
        = .ok (((slidingWindows (pySplit text700) 600 50).map joinStrip).filter
          (fun c => decide (MIN_CHUNK_LENGTH ≤ pyLen c)))
    ∧ (slidingWindows (pySplit text700) 600 50).length
        = ((pySplit text700).length - 600 + 549) / 550 + 1
    ∧ slidingWindows (pySplit text700) 600 50
        = [(pySplit text700).take 600, ((pySplit text700).drop 550).take 150] :=
  ⟨(chunk_coverage "alpha beta gamma").1 rfl (by decide),
   (chunk_coverage text700).2.1 rfl (by decide),
   ((chunk_coverage text700).2.2.1 (by decide)).1,
   (chunk_coverage text700).2.2.2 (by decide)⟩

/-!
C5.  The claim: for every two ADJACENT chunks of the sequence RETURNED
by chunk_text, when both are full-length, the last overlap words of the
earlier chunk equal the first overlap words of the later one.  The code
refutes the claim as stated: the min-length filter can drop a window
BETWEEN two kept full-length windows, and then the two adjacent returned
chunks are not consecutive windows, so their boundary words differ.  The
property does hold for adjacent windows of the generated (pre-filter)
window sequence.
-/

/-- C5 counterexample: with chunk_size 3, overlap 1, the middle window
"c d e" (5 characters) is dropped by the min-length filter; the two
returned chunks are full-length (3 words each) and adjacent, yet the
last 1 word of the first ("c") differs from the first 1 word of the
second ("e"). -/
theorem overlap_counterexample :
    chunk_text "aaaaaaaa bbbbbbbb c d e ffffffff gggggggg" 3 1
      = .ok ["aaaaaaaa bbbbbbbb c", "e ffffffff gggggggg"]
    ∧ (pySplit "aaaaaaaa bbbbbbbb c").length = 3
    ∧ (pySplit "e ffffffff gggggggg").length = 3
    ∧ lastWords 1 (pySplit "aaaaaaaa bbbbbbbb c")
      ≠ firstWords 1 (pySplit "e ffffffff gggggggg") :=
  ⟨rfl, rfl, rfl, by decide⟩

/-- C5 amended: for adjacent windows j and j + 1 of the GENERATED window
sequence (before the min-length filter), when window j is full-length
(exactly chunk_size words), its last overlap words equal the first
overlap words of window j + 1. -/
theorem window_overlap_amended (words : List String) (cs ov j : Nat)
    (hov : ov < cs)
    (hj : j + 1 < (slidingWindows words cs ov).length)
    (hfull : ((slidingWindows words cs ov).getD j []).length = cs) :
    lastWords ov ((slidingWindows words cs ov).getD j [])
      = firstWords ov ((slidingWindows words cs ov).getD (j + 1) []) := by
  have hstep : 0 < cs - ov := by omega
  have hlen_eq : slidingWindows words cs ov
      = chunkLoop words cs (cs - ov) words.length 0 := rfl
  have hj0 : j < (chunkLoop words cs (cs - ov) words.length 0).length := by
    rw [← hlen_eq]
    omega
  have hj1 : j + 1 < (chunkLoop words cs (cs - ov) words.length 0).length := by
    rw [← hlen_eq]
    omega
  have hg0 : (slidingWindows words cs ov).get? j
      = some ((words.drop (0 + (cs - ov) * j)).take cs) := by
    rw [hlen_eq]
    exact chunkLoop_get? cs (cs - ov) hstep words.length words 0 (by omega) j hj0
  have hg1 : (slidingWindows words cs ov).get? (j + 1)
      = some ((words.drop (0 + (cs - ov) * (j + 1))).take cs) := by
    rw [hlen_eq]
    exact chunkLoop_get? cs (cs - ov) hstep words.length words 0 (by omega)
      (j + 1) hj1
  have hD0 : (slidingWindows words cs ov).getD j []
      = (words.drop ((cs - ov) * j)).take cs := by
    rw [List.getD_eq_getElem?_getD, ← List.get?_eq_getElem?, hg0, Nat.zero_add]
    rfl
  have hD1 : (slidingWindows words cs ov).getD (j + 1) []
      = (words.drop ((cs - ov) * (j + 1))).take cs := by
    rw [List.getD_eq_getElem?_getD, ← List.get?_eq_getElem?, hg1, Nat.zero_add]
    rfl
  rw [hD0] at hfull
  rw [hD0, hD1]
  unfold lastWords firstWords
  rw [hfull, List.drop_take, List.drop_drop, List.take_take]
  have h1 : cs - (cs - ov) = ov := by omega
  have h2 : ov ⊓ cs = ov := min_eq_left (Nat.le_of_lt hov)
  have h3 : (cs - ov) * j + (cs - ov) = (cs - ov) * (j + 1) := by ring
  rw [h1, h2, h3]

/-- Witness for C5 amended at the counterexample word list: windows 0
and 1 of the generated sequence share the boundary word "c". -/
theorem window_overlap_amended_witness :
    lastWords 1 ((slidingWindows
        ["aaaaaaaa", "bbbbbbbb", "c", "d", "e", "ffffffff", "gggggggg"] 3 1).getD 0 [])
      = firstWords 1 ((slidingWindows
        ["aaaaaaaa", "bbbbbbbb", "c", "d", "e", "ffffffff", "gggggggg"] 3 1).getD 1 []) :=
  window_overlap_amended
    ["aaaaaaaa", "bbbbbbbb", "c", "d", "e", "ffffffff", "gggggggg"] 3 1 0
    (by decide) (by decide) (by decide)

/-- _validate_retrieval_parameters succeeds on a non-empty query, a
positive top_k and a threshold in the closed unit interval. -/
theorem validate_retrieval_parameters_ok (query : String) (top_k : Int)
    (threshold : ℚ) (hq : pyStrip query ≠ "") (hk : 0 < top_k)
    (ht0 : 0 ≤ threshold) (ht1 : threshold ≤ 1) :
    validate_retrieval_parameters query top_k threshold = .ok () := by
  unfold validate_retrieval_parameters
  rw [if_neg hq, if_neg (by omega), if_neg (by push_neg; exact ⟨ht0, ht1⟩)]

/-- On a built state with valid parameters and a successful query
embedding, retrieve returns the filtered and mapped search results. -/
theorem retrieve_eq_ok (encodeQ : String → Except String Vec)
    (normalize : Vec → Vec) (db : VectorDB) (query : String) (top_k : Int)
    (threshold : ℚ) (vecs : List Vec) (emb : Vec)
    (hbuilt : db.is_indexed = true) (hidx : db.index = some vecs)
    (hq : pyStrip query ≠ "") (hk : 0 < top_k)
    (ht0 : 0 ≤ threshold) (ht1 : threshold ≤ 1)
    (henc : encodeQ query = .ok emb) :
    retrieve encodeQ normalize db query top_k threshold
      = .ok (((faiss_search vecs (normalize emb)
            (min top_k.toNat db.chunks.length)).filter
          (fun p => decide (p.1 < db.chunks.length ∧ threshold < p.2))).map
        (fun p => db.chunks.getD p.1 "")) := by
  unfold retrieve
  rw [if_neg (by simp [hbuilt, hidx]),
    validate_retrieval_parameters_ok query top_k threshold hq hk ht0 ht1,
    henc, hidx]
  rfl

/-!
C6.  The claim: retrieve on a built index returns only chunks whose
similarity score is STRICTLY greater than the threshold; a chunk scoring
exactly the threshold is excluded; and when nothing exceeds the
threshold the result is the empty sequence, not an error.  Source:
vector_store.py lines 323-335.
-/

/-- C6: on a built index with valid parameters, retrieve succeeds, every
returned chunk is backed by a search hit scoring strictly above the
threshold (so an exact-threshold hit is never selected), and if no hit
scores above the threshold the result is the empty list. -/
theorem retrieve_strict_threshold (encodeQ : String → Except String Vec)
    (normalize : Vec → Vec) (db : VectorDB) (query : String) (top_k : Int)
    (threshold : ℚ) (vecs : List Vec) (emb : Vec)
    (hbuilt : db.is_indexed = true) (hidx : db.index = some vecs)
    (hq : pyStrip query ≠ "") (hk : 0 < top_k)
    (ht0 : 0 ≤ threshold) (ht1 : threshold ≤ 1)
    (henc : encodeQ query = .ok emb) :
    ∃ res, retrieve encodeQ normalize db query top_k threshold = .ok res
      ∧ (∀ c ∈ res, ∃ p ∈ faiss_search vecs (normalize emb)
            (min top_k.toNat db.chunks.length),
          threshold < p.2 ∧ p.1 < db.chunks.length ∧ c = db.chunks.getD p.1 "")
      ∧ ((∀ p ∈ faiss_search vecs (normalize emb)
            (min top_k.toNat db.chunks.length), p.2 ≤ threshold) → res = []) := by
  refine ⟨_, retrieve_eq_ok encodeQ normalize db query top_k threshold vecs emb
    hbuilt hidx hq hk ht0 ht1 henc, ?_, ?_⟩
  · intro c hc
    obtain ⟨p, hpmem, hpc⟩ := List.mem_map.mp hc
    obtain ⟨hpin, hpd⟩ := List.mem_filter.mp hpmem
    have hpd2 := of_decide_eq_true hpd
    exact ⟨p, hpin, hpd2.2, hpd2.1, hpc.symm⟩
  · intro hall
    have hfil : (faiss_search vecs (normalize emb)
        (min top_k.toNat db.chunks.length)).filter
          (fun p => decide (p.1 < db.chunks.length ∧ threshold < p.2)) = [] := by
      rw [List.filter_eq_nil_iff]
      intro p hp
      simp only [decide_eq_true_eq]
      rintro ⟨-, h2⟩
      exact absurd h2 (not_lt.mpr (hall p hp))
    rw [hfil]
    rfl

/-- Witness for C6 at the concrete built two-chunk state, query "hello",
top_k 2, threshold 0. -/
theorem retrieve_strict_threshold_witness :
    ∃ res, retrieve encodeQOne id builtDB "hello" 2 0 = .ok res
      ∧ (∀ c ∈ res, ∃ p ∈ faiss_search [[1], [0]] (id [1])
            (min (Int.toNat 2) builtDB.chunks.length),
          (0 : ℚ) < p.2 ∧ p.1 < builtDB.chunks.length
            ∧ c = builtDB.chunks.getD p.1 "")
      ∧ ((∀ p ∈ faiss_search [[1], [0]] (id [1])
            (min (Int.toNat 2) builtDB.chunks.length), p.2 ≤ 0) → res = []) :=
  retrieve_strict_threshold encodeQOne id builtDB "hello" 2 0 [[1], [0]] [1]
    rfl rfl (by decide) (by decide) (le_refl 0) zero_le_one rfl

/-!
C7.  The claim: retrieve returns at most min(topK, n) chunks on a built
index of n chunks, silently capping topK at n, and never errors merely
because topK exceeds n.  Source: vector_store.py lines 316-321 and
274-283.
-/

/-- C7: on a built index with valid parameters, retrieve succeeds (no
error even when top_k exceeds the chunk count) and returns at most
min(top_k, chunk count) chunks — the search is called with exactly that
cap. -/
theorem retrieve_topk_cap (encodeQ : String → Except String Vec)
    (normalize : Vec → Vec) (db : VectorDB) (query : String) (top_k : Int)
    (threshold : ℚ) (vecs : List Vec) (emb : Vec)
    (hbuilt : db.is_indexed = true) (hidx : db.index = some vecs)
    (hq : pyStrip query ≠ "") (hk : 0 < top_k)
    (ht0 : 0 ≤ threshold) (ht1 : threshold ≤ 1)
    (henc : encodeQ query = .ok emb) :
    ∃ res, retrieve encodeQ normalize db query top_k threshold = .ok res
      ∧ res.length ≤ min top_k.toNat db.chunks.length
      ∧ res.length ≤ db.chunks.length := by
  refine ⟨_, retrieve_eq_ok encodeQ normalize db query top_k threshold vecs emb
    hbuilt hidx hq hk ht0 ht1 henc, ?_, ?_⟩
  · rw [List.length_map]
    calc ((faiss_search vecs (normalize emb)
          (min top_k.toNat db.chunks.length)).filter
        (fun p => decide (p.1 < db.chunks.length ∧ threshold < p.2))).length
        ≤ (faiss_search vecs (normalize emb)
            (min top_k.toNat db.chunks.length)).length :=
          List.length_filter_le _ _
      _ ≤ min top_k.toNat db.chunks.length := by
          unfold faiss_search
          rw [List.length_take]
          exact min_le_left _ _
  · rw [List.length_map]
    calc ((faiss_search vecs (normalize emb)
          (min top_k.toNat db.chunks.length)).filter
        (fun p => decide (p.1 < db.chunks.length ∧ threshold < p.2))).length
        ≤ (faiss_search vecs (normalize emb)
            (min top_k.toNat db.chunks.length)).length :=
          List.length_filter_le _ _
      _ ≤ min top_k.toNat db.chunks.length := by
          unfold faiss_search
          rw [List.length_take]
          exact min_le_left _ _
      _ ≤ db.chunks.length := min_le_right _ _

/-- Witness for C7 at the two-chunk built state with top_k 1000: the
call succeeds and returns at most min(1000, 2) = 2 chunks. -/
theorem retrieve_topk_cap_witness :
    ∃ res, retrieve encodeQOne id builtDB "hello" 1000 0 = .ok res
      ∧ res.length ≤ min (Int.toNat 1000) builtDB.chunks.length
      ∧ res.length ≤ builtDB.chunks.length :=
  retrieve_topk_cap encodeQOne id builtDB "hello" 1000 0 [[1], [0]] [1]
    rfl rfl (by decide) (by decide) (le_refl 0) zero_le_one rfl
